import Mathlib

/-!
Shallow embedding of `flask_digest_auth/algo.py`: the HTTP Digest
Authentication response computation (RFC 2617 style).

Python's `hashlib.md5(...).hexdigest()` is embedded as an executable MD5
over byte lists (`List Nat`, each entry `< 256`), producing the 32-char
lowercase hex digest string.  Strings are encoded to bytes with UTF-8,
as `str.encode("utf8")` does.

Python `raise UnauthorizedException(msg)` is embedded as `Except.error msg`;
a Python function body that falls off the end (implicitly returning `None`)
is embedded as `Except.ok none` in `calc_response`, whose success type is
`Option String` for exactly this reason.
-/

namespace FlaskDigestAuth

/-- The 32-bit truncation used after every MD5 additive step. -/
def add32 (x y : Nat) : Nat := (x + y) % 4294967296

/-- Bitwise complement on 32-bit words represented as `Nat`. -/
def not32 (x : Nat) : Nat := 4294967295 ^^^ (x % 4294967296)

/-- Left rotation of a 32-bit word by `s` bits. -/
def rotl32 (x s : Nat) : Nat :=
  ((x <<< s) ||| (x >>> (32 - s))) % 4294967296

/-- The 64 MD5 sine-derived constants `K[i]`. -/
def mdK : List Nat :=
  [0xd76aa478, 0xe8c7b756, 0x242070db, 0xc1bdceee,
   0xf57c0faf, 0x4787c62a, 0xa8304613, 0xfd469501,
   0x698098d8, 0x8b44f7af, 0xffff5bb1, 0x895cd7be,
   0x6b901122, 0xfd987193, 0xa679438e, 0x49b40821,
   0xf61e2562, 0xc040b340, 0x265e5a51, 0xe9b6c7aa,
   0xd62f105d, 0x02441453, 0xd8a1e681, 0xe7d3fbc8,
   0x21e1cde6, 0xc33707d6, 0xf4d50d87, 0x455a14ed,
   0xa9e3e905, 0xfcefa3f8, 0x676f02d9, 0x8d2a4c8a,
   0xfffa3942, 0x8771f681, 0x6d9d6122, 0xfde5380c,
   0xa4beea44, 0x4bdecfa9, 0xf6bb4b60, 0xbebfbc70,
   0x289b7ec6, 0xeaa127fa, 0xd4ef3085, 0x04881d05,
   0xd9d4d039, 0xe6db99e5, 0x1fa27cf8, 0xc4ac5665,
   0xf4292244, 0x432aff97, 0xab9423a7, 0xfc93a039,
   0x655b59c3, 0x8f0ccc92, 0xffeff47d, 0x85845dd1,
   0x6fa87e4f, 0xfe2ce6e0, 0xa3014314, 0x4e0811a1,
   0xf7537e82, 0xbd3af235, 0x2ad7d2bb, 0xeb86d391]

/-- The 64 MD5 per-round left-rotation amounts `S[i]`. -/
def mdS : List Nat :=
  [7, 12, 17, 22, 7, 12, 17, 22, 7, 12, 17, 22, 7, 12, 17, 22,
   5, 9, 14, 20, 5, 9, 14, 20, 5, 9, 14, 20, 5, 9, 14, 20,
   4, 11, 16, 23, 4, 11, 16, 23, 4, 11, 16, 23, 4, 11, 16, 23,
   6, 10, 15, 21, 6, 10, 15, 21, 6, 10, 15, 21, 6, 10, 15, 21]

/-- MD5 working state: the four 32-bit registers. -/
structure MDState where
  a : Nat
  b : Nat
  c : Nat
  d : Nat

/-- Decode a 64-byte block into its sixteen little-endian 32-bit words. -/
def toWords (block : List Nat) : List Nat :=
  (List.range 16).map fun j =>
    block.getD (4 * j) 0 + 256 * block.getD (4 * j + 1) 0 +
      65536 * block.getD (4 * j + 2) 0 + 16777216 * block.getD (4 * j + 3) 0

/-- One of the 64 MD5 rounds, round index `i`, message words `m`. -/
def md5Step (m : List Nat) (st : MDState) (i : Nat) : MDState :=
  let f :=
    if i < 16 then (st.b &&& st.c) ||| (not32 st.b &&& st.d)
    else if i < 32 then (st.d &&& st.b) ||| (not32 st.d &&& st.c)
    else if i < 48 then st.b ^^^ st.c ^^^ st.d
    else st.c ^^^ (st.b ||| not32 st.d)
  let g :=
    if i < 16 then i
    else if i < 32 then (5 * i + 1) % 16
    else if i < 48 then (3 * i + 5) % 16
    else (7 * i) % 16
  let t := (f + st.a + mdK.getD i 0 + m.getD g 0) % 4294967296
  { a := st.d, b := add32 st.b (rotl32 t (mdS.getD i 0)), c := st.b, d := st.c }

/-- Process one 64-byte block, updating the MD5 state. -/
def md5Block (st : MDState) (block : List Nat) : MDState :=
  let m := toWords block
  let r := (List.range 64).foldl (md5Step m) st
  { a := add32 st.a r.a, b := add32 st.b r.b, c := add32 st.c r.c,
    d := add32 st.d r.d }

/-- Split a byte list into 64-byte chunks; `fuel` bounds the recursion. -/
def chunks64 (fuel : Nat) (l : List Nat) : List (List Nat) :=
  match fuel, l with
  | 0, _ => []
  | _, [] => []
  | fuel + 1, x :: xs => (x :: xs).take 64 :: chunks64 fuel ((x :: xs).drop 64)

/-- The eight little-endian bytes of the 64-bit message bit length. -/
def lenBytes (n : Nat) : List Nat :=
  (List.range 8).map fun i => (n >>> (8 * i)) &&& 255

/-- MD5 padding: a `0x80` byte, zeros to 56 mod 64, then the bit length. -/
def md5Pad (msg : List Nat) : List Nat :=
  msg ++ [128] ++ List.replicate ((119 - msg.length % 64) % 64) 0 ++
    lenBytes ((msg.length * 8) % 18446744073709551616)

/-- The four little-endian bytes of a 32-bit word. -/
def wordLEBytes (w : Nat) : List Nat :=
  [w % 256, w / 256 % 256, w / 65536 % 256, w / 16777216 % 256]

/-- The 16-byte MD5 digest of a byte-list message. -/
def md5Bytes (msg : List Nat) : List Nat :=
  let padded := md5Pad msg
  let st := (chunks64 padded.length padded).foldl md5Block
    { a := 0x67452301, b := 0xefcdab89, c := 0x98badcfe, d := 0x10325476 }
  wordLEBytes st.a ++ wordLEBytes st.b ++ wordLEBytes st.c ++ wordLEBytes st.d

/-- The sixteen lowercase hexadecimal digit characters. -/
def hexChars : List Char := "0123456789abcdef".data

/-- The lowercase hex digit character for `n % 16`. -/
def hexDigit (n : Nat) : Char := hexChars.getD (n % 16) '0'

/-- The two lowercase hex characters of one byte. -/
def byteHex (b : Nat) : List Char := [hexDigit (b / 16), hexDigit b]

/-- Render a byte list as its lowercase hexadecimal string. -/
def bytesToHex (l : List Nat) : String := ⟨(l.map byteHex).flatten⟩

/-- `hashlib.md5(msg).hexdigest()` on a byte-list message. -/
def md5hexBytes (msg : List Nat) : String := bytesToHex (md5Bytes msg)

/-- The UTF-8 byte encoding of one character. -/
def utf8Char (c : Char) : List Nat :=
  let n := c.toNat
  if n < 128 then [n]
  else if n < 2048 then [192 ||| (n >>> 6), 128 ||| (n &&& 63)]
  else if n < 65536 then
    [224 ||| (n >>> 12), 128 ||| ((n >>> 6) &&& 63), 128 ||| (n &&& 63)]
  else
    [240 ||| (n >>> 18), 128 ||| ((n >>> 12) &&& 63),
     128 ||| ((n >>> 6) &&& 63), 128 ||| (n &&& 63)]

/-- `s.encode("utf8")` as a byte list. -/
def utf8Bytes (s : String) : List Nat := (s.data.map utf8Char).flatten

/-- `md5(s.encode("utf8")).hexdigest()`: the hash applied to a string. -/
def md5hexS (s : String) : String := md5hexBytes (utf8Bytes s)

/-- `make_password_hash(realm, username, password)` from `algo.py`:
the hash of the canonical string `username:realm:password`. -/
def make_password_hash (realm username password : String) : String :=
  md5hexS (username ++ ":" ++ realm ++ ":" ++ password)

/-- `__calc_ha1(password_hash, nonce, algorithm, cnonce)` from `algo.py`.
Raising `UnauthorizedException(msg)` is embedded as `Except.error msg`. -/
def calc_ha1 (password_hash nonce : String) (algorithm : Option String)
    (cnonce : Option String) : Except String String :=
  match algorithm with
  | none => Except.ok password_hash
  | some a =>
    if a = "MD5" then Except.ok password_hash
    else if a = "MD5-sess" then
      match cnonce with
      | none =>
        Except.error ("Missing \"cnonce\" with algorithm=\"" ++ a ++ "\"")
      | some cn =>
        Except.ok (md5hexS (password_hash ++ ":" ++ nonce ++ ":" ++ cn))
    else Except.error ("Unsupported algorithm=\"" ++ a ++ "\"")

/-- `__calc_ha2(method, uri, qop, body)` from `algo.py`. -/
def calc_ha2 (method uri : String) (qop : Option String)
    (body : Option (List Nat)) : Except String String :=
  match qop with
  | none => Except.ok (md5hexS (method ++ ":" ++ uri))
  | some q =>
    if q = "auth" then Except.ok (md5hexS (method ++ ":" ++ uri))
    else if q = "auth-int" then
      match body with
      | none => Except.error ("Missing \"body\" with qop=\"" ++ q ++ "\"")
      | some b =>
        Except.ok (md5hexS (method ++ ":" ++ uri ++ ":" ++ md5hexBytes b))
    else Except.error ("Unsupported qop=\"" ++ q ++ "\"")

/-- `calc_response(method, uri, password_hash, nonce, qop, algorithm, cnonce,
nc, body)` from `algo.py`.  In the source `qop` defaults to `None` and
`algorithm` defaults to `"MD5-sess"`; here all arguments are explicit.
`Except.ok (some s)` is a Python `return s`; `Except.ok none` is the
implicit `return None` when control falls off the end of the function;
`Except.error msg` is a raised `UnauthorizedException(msg)`. -/
def calc_response (method uri password_hash nonce : String)
    (qop : Option String) (algorithm : Option String)
    (cnonce : Option String) (nc : Option String)
    (body : Option (List Nat)) : Except String (Option String) :=
  match calc_ha1 password_hash nonce algorithm cnonce with
  | Except.error e => Except.error e
  | Except.ok ha1 =>
    match calc_ha2 method uri qop body with
    | Except.error e => Except.error e
    | Except.ok ha2 =>
      match qop with
      | none =>
        Except.ok (some (md5hexS (ha1 ++ ":" ++ nonce ++ ":" ++ ha2)))
      | some q =>
        if q = "auth" ∨ q = "auth-int" then
          match cnonce with
          | none =>
            Except.error ("Missing \"cnonce\" with the qop=\"" ++ q ++ "\"")
          | some cn =>
            match nc with
            | none =>
              Except.error ("Missing \"nc\" with the qop=\"" ++ q ++ "\"")
            | some n =>
              Except.ok (some (md5hexS (ha1 ++ ":" ++ nonce ++ ":" ++ n ++
                ":" ++ cn ++ ":" ++ q ++ ":" ++ ha2)))
        else
          match cnonce with
          | none => Except.error ("Unsupported qop=\"" ++ q ++ "\"")
          | some _ => Except.ok none

end FlaskDigestAuth

deriving instance DecidableEq for Except

namespace FlaskDigestAuth

set_option maxRecDepth 100000
set_option maxHeartbeats 1000000

/-- Every MD5 digest is sixteen bytes long. -/
theorem md5Bytes_length (msg : List Nat) : (md5Bytes msg).length = 16 := rfl

/-- Every hex digit character produced by `hexDigit` is a lowercase hex char. -/
theorem hexDigit_mem (n : Nat) : hexDigit n ∈ hexChars := by
  have h : n % 16 < 16 := Nat.mod_lt _ (by norm_num)
  unfold hexDigit
  generalize n % 16 = m at h
  interval_cases m <;> decide

/-- Both characters of a byte's hex rendering are lowercase hex chars. -/
theorem byteHex_mem (b : Nat) : ∀ c ∈ byteHex b, c ∈ hexChars := by
  intro c hc
  simp only [byteHex, List.mem_cons, List.not_mem_nil, or_false] at hc
  rcases hc with rfl | rfl <;> exact hexDigit_mem _

/-- Hex rendering doubles the byte count. -/
theorem bytesToHex_length (l : List Nat) :
    (bytesToHex l).length = 2 * l.length := by
  induction l with
  | nil => rfl
  | cons x xs ih =>
    simp [bytesToHex, String.length, byteHex] at ih ⊢
    omega

/-- Every character of a hex rendering is a lowercase hex char. -/
theorem mem_bytesToHex (l : List Nat) :
    ∀ c ∈ (bytesToHex l).data, c ∈ hexChars := by
  intro c hc
  rw [show (bytesToHex l).data = (l.map byteHex).flatten from rfl] at hc
  rcases List.mem_flatten.1 hc with ⟨cs, hcs, hc2⟩
  rcases List.mem_map.1 hcs with ⟨b, _, rfl⟩
  exact byteHex_mem b c hc2

/-- An MD5 hex digest has exactly 32 characters, all lowercase hex. -/
theorem md5hexBytes_spec (msg : List Nat) :
    (md5hexBytes msg).length = 32 ∧
      ∀ c ∈ (md5hexBytes msg).data, c ∈ hexChars := by
  constructor
  · rw [md5hexBytes, bytesToHex_length, md5Bytes_length]
  · exact mem_bytesToHex _

/-- Every run of `calc_response` either returns the MD5 hex digest of some
string or raises an exception; the implicit fall-through `Except.ok none`
never occurs. -/
theorem calc_response_shape (method uri ph nonce : String)
    (qop alg cnonce nc : Option String) (body : Option (List Nat)) :
    (∃ m, calc_response method uri ph nonce qop alg cnonce nc body =
      Except.ok (some (md5hexS m))) ∨
    (∃ e, calc_response method uri ph nonce qop alg cnonce nc body =
      Except.error e) := by
  cases hha1 : calc_ha1 ph nonce alg cnonce with
  | error e =>
    refine Or.inr ⟨e, ?_⟩
    simp [calc_response, hha1]
  | ok ha1 =>
    cases hha2 : calc_ha2 method uri qop body with
    | error e =>
      refine Or.inr ⟨e, ?_⟩
      simp [calc_response, hha1, hha2]
    | ok ha2 =>
      cases qop with
      | none =>
        refine Or.inl ⟨ha1 ++ ":" ++ nonce ++ ":" ++ ha2, ?_⟩
        simp [calc_response, hha1, hha2]
      | some q =>
        by_cases hq : q = "auth" ∨ q = "auth-int"
        · cases cnonce with
          | none =>
            refine Or.inr ⟨"Missing \"cnonce\" with the qop=\"" ++ q ++ "\"", ?_⟩
            simp [calc_response, hha1, hha2, if_pos hq]
          | some cn =>
            cases nc with
            | none =>
              refine Or.inr ⟨"Missing \"nc\" with the qop=\"" ++ q ++ "\"", ?_⟩
              simp [calc_response, hha1, hha2, if_pos hq]
            | some n =>
              refine Or.inl ⟨ha1 ++ ":" ++ nonce ++ ":" ++ n ++ ":" ++ cn ++
                ":" ++ q ++ ":" ++ ha2, ?_⟩
              simp [calc_response, hha1, hha2, if_pos hq]
        · exfalso
          push_neg at hq
          simp [calc_ha2, hq.1, hq.2] at hha2


/-- Claim C1 counterexample: on the RFC 2617 worked example the code returns
the 32-character digest `6629fae49393a05397450978507c4ef1`, which is not the
31-character value `6629fae49393a05397450978507c4ef` stated by the spec. -/
theorem rfc2617_spec_digest_refuted :
    calc_response "GET" "/dir/index.html"
        (make_password_hash "testrealm@host.com" "Mufasa" "Circle Of Life")
        "dcd98b7102dd2f0e8b11d0f600bfb0c093" (some "auth") (some "MD5")
        (some "0a4f113b") (some "00000001") none =
      Except.ok (some "6629fae49393a05397450978507c4ef1") ∧
    ("6629fae49393a05397450978507c4ef1" ==
      "6629fae49393a05397450978507c4ef") = false := by
  constructor
  · rfl
  · rfl

/-- Claim C1 (amended): on the RFC 2617 worked example —
`make_password_hash("testrealm@host.com", "Mufasa", "Circle Of Life")`,
method `GET`, uri `/dir/index.html`, nonce `dcd98b7102dd2f0e8b11d0f600bfb0c093`,
nc `00000001`, cnonce `0a4f113b`, qop `auth`, algorithm `MD5` —
`calc_response` returns `6629fae49393a05397450978507c4ef1` (the spec's
expected string is missing the final hex character `1`). -/
theorem rfc2617_worked_example :
    calc_response "GET" "/dir/index.html"
        (make_password_hash "testrealm@host.com" "Mufasa" "Circle Of Life")
        "dcd98b7102dd2f0e8b11d0f600bfb0c093" (some "auth") (some "MD5")
        (some "0a4f113b") (some "00000001") none =
      Except.ok (some "6629fae49393a05397450978507c4ef1") := rfl

/-- Claim C2 counterexample: with the default algorithm `MD5-sess` and no
cnonce, an unsupported qop value (`bogus`) makes `calc_response` fail with the
HA1-level missing-cnonce error, not the `unsupported qop` error — so the
"unsupported qop" error is not what is reported regardless of cnonce. -/
theorem unsupported_qop_error_message_refuted :
    calc_response "GET" "/" "ph" "n" (some "bogus") (some "MD5-sess")
        none none none =
      Except.error "Missing \"cnonce\" with algorithm=\"MD5-sess\"" ∧
    ("Missing \"cnonce\" with algorithm=\"MD5-sess\"" ==
      "Unsupported qop=\"bogus\"") = false := by
  constructor
  · rfl
  · rfl

/-- Claim C2 (amended): for every qop value other than unset, `auth` and
`auth-int`, `calc_response` fails unconditionally with some error (it never
returns a result, defined or empty, on that path); the error is the
`Unsupported qop` error whenever the HA1 computation succeeds (in particular
whenever cnonce is present or the algorithm does not require it). -/
theorem unsupported_qop_always_fails (method uri ph nonce q : String)
    (alg cnonce nc : Option String) (body : Option (List Nat))
    (hq1 : q ≠ "auth") (hq2 : q ≠ "auth-int") :
    (∃ e, calc_response method uri ph nonce (some q) alg cnonce nc body =
      Except.error e) ∧
    ∀ h1, calc_ha1 ph nonce alg cnonce = Except.ok h1 →
      calc_response method uri ph nonce (some q) alg cnonce nc body =
        Except.error ("Unsupported qop=\"" ++ q ++ "\"") := by
  have hha2 : calc_ha2 method uri (some q) body =
      Except.error ("Unsupported qop=\"" ++ q ++ "\"") := by
    simp [calc_ha2, hq1, hq2]
  cases hha1 : calc_ha1 ph nonce alg cnonce with
  | error e =>
    refine ⟨⟨e, ?_⟩, fun h1 hh => ?_⟩
    · simp [calc_response, hha1]
    · simp at hh
  | ok h1 =>
    refine ⟨⟨"Unsupported qop=\"" ++ q ++ "\"", ?_⟩, fun h1' hh => ?_⟩ <;>
      simp [calc_response, hha1, hha2]

/-- Claim C2 witness: the amended claim applied at qop `bogus` with
algorithm `MD5`, where HA1 succeeds and the `Unsupported qop` error results. -/
theorem unsupported_qop_always_fails_witness :
    (∃ e, calc_response "GET" "/" "ph" "n" (some "bogus") (some "MD5")
      none none none = Except.error e) ∧
    ∀ h1, calc_ha1 "ph" "n" (some "MD5") none = Except.ok h1 →
      calc_response "GET" "/" "ph" "n" (some "bogus") (some "MD5")
          none none none =
        Except.error ("Unsupported qop=\"" ++ "bogus" ++ "\"") :=
  unsupported_qop_always_fails "GET" "/" "ph" "n" "bogus" (some "MD5")
    none none none (by decide) (by decide)

/-- Claim C3 counterexample: with qop unset and the default algorithm
`MD5-sess`, changing only the cnonce (from `a` to `b`) changes the result of
`calc_response` — the two digests differ. -/
theorem qop_none_cnonce_dependence_refuted :
    calc_response "GET" "/" "ph" "n" none (some "MD5-sess") (some "a")
        none none =
      Except.ok (some "e9827793d976fd33712b040c09776e67") ∧
    calc_response "GET" "/" "ph" "n" none (some "MD5-sess") (some "b")
        none none =
      Except.ok (some "0a0c422f36cb869625ef19c38d6d87de") ∧
    ("e9827793d976fd33712b040c09776e67" ==
      "0a0c422f36cb869625ef19c38d6d87de") = false := by
  refine ⟨?_, ?_, ?_⟩ <;> rfl

/-- Claim C3 (amended): with qop unset, `calc_response` never depends on nc,
for any algorithm; it is additionally independent of cnonce when the
algorithm is `MD5` or unset, but under `MD5-sess` (the default) cnonce feeds
HA1 and so does change the result. -/
theorem qop_none_nc_independent (method uri ph nonce : String)
    (alg cnonce cnonce' nc nc' : Option String) (body : Option (List Nat)) :
    (calc_response method uri ph nonce none alg cnonce nc body =
      calc_response method uri ph nonce none alg cnonce nc' body) ∧
    ((alg = none ∨ alg = some "MD5") →
      calc_response method uri ph nonce none alg cnonce nc body =
        calc_response method uri ph nonce none alg cnonce' nc' body) := by
  constructor
  · rfl
  · rintro (rfl | rfl) <;> simp [calc_response, calc_ha1]

/-- Claim C3 witness: the amended claim applied at concrete inputs — an nc
change under `MD5-sess`, and an nc-and-cnonce change under `MD5`. -/
theorem qop_none_nc_independent_witness :
    (calc_response "GET" "/" "ph" "n" none (some "MD5-sess") (some "cn")
        (some "1") none =
      calc_response "GET" "/" "ph" "n" none (some "MD5-sess") (some "cn")
        (some "2") none) ∧
    (calc_response "GET" "/" "ph" "n" none (some "MD5") (some "a")
        (some "1") none =
      calc_response "GET" "/" "ph" "n" none (some "MD5") (some "b")
        (some "2") none) :=
  ⟨(qop_none_nc_independent "GET" "/" "ph" "n" (some "MD5-sess") (some "cn")
      (some "cn") (some "1") (some "2") none).1,
    (qop_none_nc_independent "GET" "/" "ph" "n" (some "MD5") (some "a")
      (some "b") (some "1") (some "2") none).2 (Or.inr rfl)⟩

/-- Claim C4: HA1 with algorithm `MD5` or unset returns the supplied
credential hash unchanged (for any cnonce); with `MD5-sess` it returns
`hash(credentialHash:nonce:cnonce)` when cnonce is present and fails with the
missing-cnonce error when cnonce is absent; any other algorithm value fails
with the unsupported-algorithm error. -/
theorem ha1_behavior (ph nonce cn : String) (cnonce : Option String)
    (a : String) :
    calc_ha1 ph nonce none cnonce = Except.ok ph ∧
    calc_ha1 ph nonce (some "MD5") cnonce = Except.ok ph ∧
    calc_ha1 ph nonce (some "MD5-sess") (some cn) =
      Except.ok (md5hexS (ph ++ ":" ++ nonce ++ ":" ++ cn)) ∧
    calc_ha1 ph nonce (some "MD5-sess") none =
      Except.error "Missing \"cnonce\" with algorithm=\"MD5-sess\"" ∧
    (a ≠ "MD5" → a ≠ "MD5-sess" → calc_ha1 ph nonce (some a) cnonce =
      Except.error ("Unsupported algorithm=\"" ++ a ++ "\"")) := by
  refine ⟨rfl, rfl, rfl, rfl, fun h1 h2 => ?_⟩
  simp [calc_ha1, h1, h2]

/-- Claim C4 witness: the claim applied at concrete inputs, including the
unsupported algorithm `ROT13`. -/
theorem ha1_behavior_witness :
    calc_ha1 "ph" "n" none (some "x") = Except.ok "ph" ∧
    calc_ha1 "ph" "n" (some "MD5") (some "x") = Except.ok "ph" ∧
    calc_ha1 "ph" "n" (some "MD5-sess") (some "cn") =
      Except.ok (md5hexS ("ph" ++ ":" ++ "n" ++ ":" ++ "cn")) ∧
    calc_ha1 "ph" "n" (some "MD5-sess") none =
      Except.error "Missing \"cnonce\" with algorithm=\"MD5-sess\"" ∧
    calc_ha1 "ph" "n" (some "ROT13") (some "x") =
      Except.error ("Unsupported algorithm=\"" ++ "ROT13" ++ "\"") := by
  obtain ⟨a1, a2, a3, a4, a5⟩ := ha1_behavior "ph" "n" "cn" (some "x") "ROT13"
  exact ⟨a1, a2, a3, a4, a5 (by decide) (by decide)⟩

/-- Claim C5: HA2 with qop unset or `auth` returns `hash(method:uri)` (for any
body); with qop `auth-int` and a body present it returns
`hash(method:uri:hash(body))`, the body hashed first and its hex digest
embedded in the outer string; with qop `auth-int` and no body it fails with
the missing-body error. -/
theorem ha2_behavior (method uri : String) (body : Option (List Nat))
    (b : List Nat) :
    calc_ha2 method uri none body =
      Except.ok (md5hexS (method ++ ":" ++ uri)) ∧
    calc_ha2 method uri (some "auth") body =
      Except.ok (md5hexS (method ++ ":" ++ uri)) ∧
    calc_ha2 method uri (some "auth-int") (some b) =
      Except.ok (md5hexS (method ++ ":" ++ uri ++ ":" ++ md5hexBytes b)) ∧
    calc_ha2 method uri (some "auth-int") none =
      Except.error "Missing \"body\" with qop=\"auth-int\"" :=
  ⟨rfl, rfl, rfl, rfl⟩

/-- Claim C6: when qop is `auth` or `auth-int` and the HA1 and HA2 steps
succeed, `calc_response` fails with the missing-cnonce error when cnonce is
absent (regardless of nc, so the cnonce check comes first), otherwise with
the missing-nc error when nc is absent, and when both are present it returns
`hash(HA1:nonce:nc:cnonce:qop:HA2)`. -/
theorem response_qop_param_checks (method uri ph nonce q : String)
    (alg cnonce nc : Option String) (body : Option (List Nat))
    (ha1 ha2 : String) (hq : q = "auth" ∨ q = "auth-int")
    (h1 : calc_ha1 ph nonce alg cnonce = Except.ok ha1)
    (h2 : calc_ha2 method uri (some q) body = Except.ok ha2) :
    (cnonce = none →
      calc_response method uri ph nonce (some q) alg cnonce nc body =
        Except.error ("Missing \"cnonce\" with the qop=\"" ++ q ++ "\"")) ∧
    (∀ cn, cnonce = some cn → nc = none →
      calc_response method uri ph nonce (some q) alg cnonce nc body =
        Except.error ("Missing \"nc\" with the qop=\"" ++ q ++ "\"")) ∧
    (∀ cn n, cnonce = some cn → nc = some n →
      calc_response method uri ph nonce (some q) alg cnonce nc body =
        Except.ok (some (md5hexS (ha1 ++ ":" ++ nonce ++ ":" ++ n ++ ":" ++
          cn ++ ":" ++ q ++ ":" ++ ha2)))) := by
  refine ⟨?_, ?_, ?_⟩
  · rintro rfl
    simp [calc_response, h1, h2, if_pos hq]
  · rintro cn rfl rfl
    simp [calc_response, h1, h2, if_pos hq]
  · rintro cn n rfl rfl
    simp [calc_response, h1, h2, if_pos hq]

/-- Claim C6 witness: the claim applied with qop `auth`, algorithm `MD5`,
cnonce and nc both present, yielding the quality-of-protection digest. -/
theorem response_qop_param_checks_witness :
    calc_response "GET" "/" "ph" "n" (some "auth") (some "MD5") (some "cn")
        (some "01") none =
      Except.ok (some (md5hexS ("ph" ++ ":" ++ "n" ++ ":" ++ "01" ++ ":" ++
        "cn" ++ ":" ++ "auth" ++ ":" ++ md5hexS ("GET" ++ ":" ++ "/")))) :=
  (response_qop_param_checks "GET" "/" "ph" "n" "auth" (some "MD5")
      (some "cn") (some "01") none "ph" (md5hexS ("GET" ++ ":" ++ "/"))
      (Or.inl rfl) rfl rfl).2.2 "cn" "01" rfl rfl

/-- Claim C7: `make_password_hash` is total and deterministic — for any
realm, username and password strings (empty ones included) it returns the
hash of the canonical string `username:realm:password`, and equal input
triples give equal outputs. -/
theorem make_password_hash_canonical (realm username password r u p : String) :
    make_password_hash realm username password =
      md5hexS (username ++ ":" ++ realm ++ ":" ++ password) ∧
    (realm = r → username = u → password = p →
      make_password_hash realm username password =
        make_password_hash r u p) := by
  refine ⟨rfl, fun h1 h2 h3 => ?_⟩
  rw [h1, h2, h3]

/-- Claim C7 witness: the claim applied at the all-empty-string triple. -/
theorem make_password_hash_canonical_witness :
    make_password_hash "" "" "" = md5hexS ("" ++ ":" ++ "" ++ ":" ++ "") ∧
    make_password_hash "" "" "" = make_password_hash "" "" "" :=
  ⟨(make_password_hash_canonical "" "" "" "" "" "").1,
    (make_password_hash_canonical "" "" "" "" "" "").2 rfl rfl rfl⟩

/-- Claim C8: every `make_password_hash` output, and every string returned by
a successful `calc_response` call, has exactly 32 characters, all of them
lowercase hexadecimal digits. -/
theorem outputs_are_32_lowercase_hex (r u p method uri ph nonce : String)
    (qop alg cnonce nc : Option String) (body : Option (List Nat))
    (s : String) :
    ((make_password_hash r u p).length = 32 ∧
      ∀ c ∈ (make_password_hash r u p).data, c ∈ hexChars) ∧
    (calc_response method uri ph nonce qop alg cnonce nc body =
        Except.ok (some s) →
      s.length = 32 ∧ ∀ c ∈ s.data, c ∈ hexChars) := by
  constructor
  · exact md5hexBytes_spec (utf8Bytes (u ++ ":" ++ r ++ ":" ++ p))
  · intro h
    rcases calc_response_shape method uri ph nonce qop alg cnonce nc body with
      ⟨m, h2⟩ | ⟨e, h2⟩
    · have h3 := h.symm.trans h2
      simp only [Except.ok.injEq, Option.some.injEq] at h3
      subst h3
      exact md5hexBytes_spec (utf8Bytes m)
    · have h3 := h.symm.trans h2
      simp at h3

/-- Claim C8 witness: the claim applied at concrete inputs; the successful
`calc_response` hypothesis is discharged by evaluation. -/
theorem outputs_are_32_lowercase_hex_witness :
    ((make_password_hash "realm" "user" "pass").length = 32 ∧
      ∀ c ∈ (make_password_hash "realm" "user" "pass").data, c ∈ hexChars) ∧
    ((md5hexS ("x" ++ ":" ++ "n" ++ ":" ++
        md5hexS ("GET" ++ ":" ++ "/"))).length = 32 ∧
      ∀ c ∈ (md5hexS ("x" ++ ":" ++ "n" ++ ":" ++
        md5hexS ("GET" ++ ":" ++ "/"))).data, c ∈ hexChars) :=
  ⟨(outputs_are_32_lowercase_hex "realm" "user" "pass" "GET" "/" "x" "n"
      none (some "MD5") none none none
      (md5hexS ("x" ++ ":" ++ "n" ++ ":" ++ md5hexS ("GET" ++ ":" ++ "/")))).1,
    (outputs_are_32_lowercase_hex "realm" "user" "pass" "GET" "/" "x" "n"
      none (some "MD5") none none none
      (md5hexS ("x" ++ ":" ++ "n" ++ ":" ++
        md5hexS ("GET" ++ ":" ++ "/")))).2 rfl⟩

/-- Claim C9: `calc_response` is total — on every input it either returns a
digest string or raises an error; the source's trailing branch that would
fall off the end of the function (embedded as `Except.ok none`) is
unreachable, because `calc_ha2` already fails for every qop outside
unset/`auth`/`auth-int`. -/
theorem calc_response_total (method uri ph nonce : String)
    (qop alg cnonce nc : Option String) (body : Option (List Nat)) :
    (∃ s, calc_response method uri ph nonce qop alg cnonce nc body =
      Except.ok (some s)) ∨
    (∃ e, calc_response method uri ph nonce qop alg cnonce nc body =
      Except.error e) := by
  rcases calc_response_shape method uri ph nonce qop alg cnonce nc body with
    ⟨m, h⟩ | ⟨e, h⟩
  · exact Or.inl ⟨md5hexS m, h⟩
  · exact Or.inr ⟨e, h⟩

/-- Claim C10: with algorithm `MD5-sess`, qop `auth` or `auth-int`, and
cnonce absent, `calc_response` reports the HA1-level missing-cnonce error
(which names the algorithm), not the qop-level missing-cnonce error: HA1 is
computed before the qop-level cnonce check. -/
theorem ha1_cnonce_error_precedence (method uri ph nonce q : String)
    (nc : Option String) (body : Option (List Nat))
    (hq : q = "auth" ∨ q = "auth-int") :
    calc_response method uri ph nonce (some q) (some "MD5-sess") none nc body =
      Except.error "Missing \"cnonce\" with algorithm=\"MD5-sess\"" ∧
    ("Missing \"cnonce\" with algorithm=\"MD5-sess\"" ==
      ("Missing \"cnonce\" with the qop=\"" ++ q ++ "\"")) = false := by
  constructor
  · rfl
  · rcases hq with rfl | rfl <;> rfl

/-- Claim C10 witness: the claim applied at qop `auth`. -/
theorem ha1_cnonce_error_precedence_witness :
    calc_response "GET" "/" "ph" "n" (some "auth") (some "MD5-sess")
        none none none =
      Except.error "Missing \"cnonce\" with algorithm=\"MD5-sess\"" ∧
    ("Missing \"cnonce\" with algorithm=\"MD5-sess\"" ==
      ("Missing \"cnonce\" with the qop=\"" ++ "auth" ++ "\"")) = false :=
  ha1_cnonce_error_precedence "GET" "/" "ph" "n" "auth" none none
    (Or.inl rfl)

end FlaskDigestAuth
